import Mathlib

/-!
# Verification of the authenticated async job orchestration layer

Shallow embedding of `src/inference_handler.py` from the model_harness
repository: the submission endpoint `authenticated_async_generate`, the
polling endpoint `get_job_status`, and the circuit breaker guarding
`_invoke_sagemaker_async`.  External effects (S3 writes, listings,
SageMaker invocations) are modelled as explicit environment data and an
effect trace, so that claims about "no storage write happened" become
statements about the trace.
-/

namespace ModelHarness

/-- Modelled from the spec: the error-class taxonomy of `src/errors.py`
(`ValidationAPIError`, `InferenceAPIError`, `ServiceUnavailableAPIError`),
which is imported by `src/inference_handler.py` but whose source file is
not in the repository snapshot.  Per spec §7 the categories are disjoint
classes, so `except ValidationAPIError` catches exactly the `validation`
case and `except Exception` catches everything. -/
inductive APIError where
  | validation (msg : String)
  | inference (msg : String)
  | serviceUnavailable (msg : String)
  deriving DecidableEq, Repr

/-- Category name of an error, for stating claims about which class was
raised without caring about the message text. -/
def APIError.category : APIError → String
  | .validation _ => "validation"
  | .inference _ => "inference"
  | .serviceUnavailable _ => "service_unavailable"

/-- Python's `not prompt or not prompt.strip()`: the string is empty or
consists only of whitespace. -/
def isBlank (s : String) : Bool :=
  s.data.all Char.isWhitespace

/-- Request body of `POST /auth/generate` (`AsyncGenerateRequest`,
src/inference_handler.py lines 250-253). -/
structure AsyncGenerateRequest where
  prompt : String
  priority : String
  callback_url : Option String
  deriving DecidableEq, Repr

/-- Response body of `POST /auth/generate` (`AsyncGenerateResponse`,
src/inference_handler.py lines 255-262). -/
structure AsyncGenerateResponse where
  job_id : String
  inference_id : String
  output_location : String
  failure_location : String
  estimated_completion_seconds : Nat
  status_url : String
  user_id : String
  deriving DecidableEq, Repr

/-- The fields of the SageMaker `invoke_endpoint_async` response that
`authenticated_async_generate` reads (lines 340-342). -/
structure SageMakerResponse where
  inferenceId : String
  outputLocation : String
  failureLocation : String
  deriving DecidableEq, Repr

/-- Externally visible side effects of the submission path: an S3
`put_object` attempt and a call of `_invoke_sagemaker_async`. -/
inductive Effect where
  | s3Put (bucket key : String)
  | sagemakerInvoke (endpoint inputUri : String)
  deriving DecidableEq, Repr

/-- Environment of one submission request: configuration read from the
process environment and the outcome of each external call, fixed up front
so the handler is a pure function of it.  `putResult = some msg` means
`s3_client.put_object` raises an exception rendering as `msg`;
`invokeResult = Except.error msg` means the SageMaker client call inside
`_invoke_sagemaker_async` raises an exception rendering as `msg`. -/
structure SubmitEnv where
  hasBoto3 : Bool
  bucket : String
  endpointName : String
  putResult : Option String
  invokeResult : Except String SageMakerResponse
  deriving Repr

/-- `_invoke_sagemaker_async` (src/inference_handler.py lines 458-471),
without the circuit-breaker decorator (its state is studied separately):
on any exception from the SageMaker client it raises
`InferenceAPIError("SageMaker invocation failed: ...")`. -/
def invoke_sagemaker_async (env : SubmitEnv) :
    Except APIError SageMakerResponse :=
  match env.invokeResult with
  | .ok r => .ok r
  | .error msg => .error (.inference ("SageMaker invocation failed: " ++ msg))

/-- `authenticated_async_generate` (src/inference_handler.py lines
277-355) as a pure function of the request, the caller identity, the
generated `job_id` (the `uuid.uuid4()` value) and the environment.
Returns the handler's outcome together with the trace of external
effects it attempted, in order.  The `try/except` structure of the
source — `except ValidationAPIError: raise` followed by
`except Exception as e: raise InferenceAPIError(f"Failed to start image
generation: {str(e)}")` — is reflected in which error constructor each
branch produces. -/
def authenticated_async_generate (env : SubmitEnv) (user_id job_id : String)
    (request : AsyncGenerateRequest) :
    Except APIError AsyncGenerateResponse × List Effect :=
  if isBlank request.prompt then
    (.error (.validation "Prompt cannot be empty"), [])
  else if request.prompt.length > 1000 then
    (.error (.validation "Prompt too long (max 1000 characters)"), [])
  else
    let input_key := "inputs/" ++ user_id ++ "/" ++ job_id ++ ".json"
    let input_s3_uri := "s3://" ++ env.bucket ++ "/" ++ input_key
    if env.hasBoto3 = false then
      -- `raise ServiceUnavailableAPIError("AWS services unavailable")` is
      -- caught by the handler's own `except Exception` and re-raised as
      -- InferenceAPIError.
      (.error (.inference
        ("Failed to start image generation: " ++ "AWS services unavailable")), [])
    else
      match env.putResult with
      | some msg =>
          (.error (.inference ("Failed to start image generation: " ++ msg)),
           [Effect.s3Put env.bucket input_key])
      | none =>
          match invoke_sagemaker_async env with
          | .error (.inference m) =>
              (.error (.inference ("Failed to start image generation: " ++ m)),
               [Effect.s3Put env.bucket input_key,
                Effect.sagemakerInvoke env.endpointName input_s3_uri])
          | .error e =>
              (.error (.inference ("Failed to start image generation: "
                ++ APIError.category e)),
               [Effect.s3Put env.bucket input_key,
                Effect.sagemakerInvoke env.endpointName input_s3_uri])
          | .ok resp =>
              (.ok { job_id := job_id
                     inference_id := resp.inferenceId
                     output_location := resp.outputLocation
                     failure_location := resp.failureLocation
                     estimated_completion_seconds := 5
                     status_url := "/auth/status/" ++ job_id
                     user_id := user_id },
               [Effect.s3Put env.bucket input_key,
                Effect.sagemakerInvoke env.endpointName input_s3_uri])

/-! ## Job status resolution (`GET /auth/status/{job_id}`) -/

/-- Character equality as a `Bool`. -/
def chEq (c d : Char) : Bool := decide (c = d)

/-- Whether the first list is an initial segment of the second. -/
def listStarts : List Char → List Char → Bool
  | [], _ => true
  | _ :: _, [] => false
  | c :: cs, d :: ds => chEq c d && listStarts cs ds

/-- Whether `needle` occurs as a contiguous sublist of `hay`. -/
def subOf (needle : List Char) : List Char → Bool
  | [] => needle.isEmpty
  | c :: t => listStarts needle (c :: t) || subOf needle t

/-- Python's substring test `needle in hay` on strings. -/
def strContains (hay needle : String) : Bool :=
  subOf needle.data hay.data

/-- Python's `hay.startswith(pfx)`; the key filter of `list_objects_v2`. -/
def strStarts (hay pfx : String) : Bool :=
  listStarts pfx.data hay.data

/-- Python's slice `s[:n]`: the first `n` code points of `s`. -/
def pySlice (s : String) (n : Nat) : String :=
  String.mk (s.data.take n)

/-- One object of the S3 bucket as `get_job_status` sees it: its key, its
`LastModified` timestamp (already rendered by `.isoformat()`), and its
body (read only for failure objects). -/
structure S3Object where
  key : String
  lastModified : String
  content : String
  deriving DecidableEq, Repr

/-- `s3_client.generate_presigned_url('get_object', ...)`: an opaque
deterministic function of the bucket, the key and the expiry. -/
def generate_presigned_url (bucket key : String) (expiresIn : Nat) : String :=
  "https://" ++ bucket ++ ".s3.amazonaws.com/" ++ key
    ++ "?presigned-expires=" ++ toString expiresIn

/-- `s3_client.list_objects_v2(Bucket=bucket, Prefix=pfx, MaxKeys=100)`:
the objects of the bucket whose key starts with `pfx`, in listing order,
truncated to the first 100 — the code never paginates past them. -/
def list_objects_v2 (storage : List S3Object) (pfx : String) (maxKeys : Nat) :
    List S3Object :=
  (storage.filter (fun o => strStarts o.key pfx)).take maxKeys

/-- Environment of one status request: the bucket contents (in listing
order) and whether each of the two `list_objects_v2` calls raises
(`outputScanRaises` for the `outputs/` scan, `failureScanRaises` for the
`failures/` scan); `now` is `datetime.utcnow().isoformat()`. -/
structure StatusEnv where
  bucket : String
  storage : List S3Object
  outputScanRaises : Bool
  failureScanRaises : Bool
  now : String
  deriving DecidableEq, Repr

/-- Response body of `GET /auth/status/{job_id}` (`JobStatus`,
src/inference_handler.py lines 264-271). -/
structure JobStatus where
  job_id : String
  status : String
  created_at : String
  completed_at : Option String
  output_url : Option String
  error_message : Option String
  user_id : String
  deriving DecidableEq, Repr

/-- The `outputs/` scan of `get_job_status` (lines 374-400): list the
output listing and return the first object whose key contains `job_id`;
a raised listing error is caught and treated as no match. -/
def outputScan (env : StatusEnv) (job_id : String) : Option S3Object :=
  if env.outputScanRaises then none
  else (list_objects_v2 env.storage "outputs/" 100).find?
    (fun o => strContains o.key job_id)

/-- The `failures/` scan of `get_job_status` (lines 402-426), symmetric
to `outputScan`. -/
def failureScan (env : StatusEnv) (job_id : String) : Option S3Object :=
  if env.failureScanRaises then none
  else (list_objects_v2 env.storage "failures/" 100).find?
    (fun o => strContains o.key job_id)

/-- `get_job_status` (src/inference_handler.py lines 358-441): check the
`outputs/` prefix first, then `failures/`, and fall through to a
`processing` response.  Scan errors are caught per prefix (lines 399-400
and 425-426), so the function is total. -/
def get_job_status (env : StatusEnv) (user_id job_id : String) : JobStatus :=
  match outputScan env job_id with
  | some obj =>
      { job_id := job_id
        status := "completed"
        created_at := obj.lastModified
        completed_at := some obj.lastModified
        output_url := some (generate_presigned_url env.bucket obj.key 3600)
        error_message := none
        user_id := user_id }
  | none =>
      match failureScan env job_id with
      | some obj =>
          { job_id := job_id
            status := "failed"
            created_at := obj.lastModified
            completed_at := some obj.lastModified
            output_url := none
            error_message := some (pySlice obj.content 500)
            user_id := user_id }
      | none =>
          { job_id := job_id
            status := "processing"
            created_at := env.now
            completed_at := none
            output_url := none
            error_message := none
            user_id := user_id }

/-! ## Circuit breaker -/

/-- The three breaker states of spec §4.3. -/
inductive BreakerState where
  | closed
  | opened
  | halfOpen
  deriving DecidableEq, Repr

/-- Modelled from the spec: the `CircuitBreaker` class lives in
`src/errors.py`, which `src/inference_handler.py` imports but which is
not in the repository snapshot.  State per spec §3/§4.3:
`{closed|open|half_open, consecutive_failure_count, last_failure_time,
failure_threshold, reset_timeout}`; time is in seconds. -/
structure CircuitBreaker where
  failure_threshold : Nat
  reset_timeout : Nat
  state : BreakerState
  consecutive_failure_count : Nat
  last_failure_time : Nat
  deriving DecidableEq, Repr

/-- `CircuitBreaker(failure_threshold=5, reset_timeout=60)` at line 274
of src/inference_handler.py: a freshly constructed, closed breaker. -/
def CircuitBreaker.init (threshold timeout : Nat) : CircuitBreaker :=
  { failure_threshold := threshold
    reset_timeout := timeout
    state := .closed
    consecutive_failure_count := 0
    last_failure_time := 0 }

/-- The wrapped downstream dependency: `outcomes n` is whether its
`n`-th invocation succeeds, and `calls` counts invocations so far, so a
fast-failed call is visible as an unchanged counter. -/
structure Dependency where
  outcomes : Nat → Bool
  calls : Nat

/-- Outcome of one call through the breaker, as the caller sees it. -/
inductive CallResult where
  | success
  | failure
  | rejected
  deriving DecidableEq, Repr

/-- Modelled from the spec (§4.3): the half-open trial call — invoke the
dependency once; success closes the breaker and resets the counter,
failure reopens it and records `now` as the new `last_failure_time`. -/
def CircuitBreaker.trial (cb : CircuitBreaker) (dep : Dependency) (now : Nat) :
    CallResult × CircuitBreaker × Dependency :=
  let ok := dep.outcomes dep.calls
  let dep' : Dependency := { dep with calls := dep.calls + 1 }
  if ok then
    (.success,
     { cb with state := .closed, consecutive_failure_count := 0 }, dep')
  else
    (.failure,
     { cb with state := .opened, last_failure_time := now }, dep')

/-- Modelled from the spec (§4.3): one call through the breaker at time
`now`.  Closed: pass through; a failure increments
`consecutive_failure_count` and opens the breaker when the count reaches
`failure_threshold`, a success resets the count.  Open: fail fast
without invoking the dependency until `now - last_failure_time ≥
reset_timeout`, then transition to half-open and run the trial call. -/
def CircuitBreaker.call (cb : CircuitBreaker) (dep : Dependency) (now : Nat) :
    CallResult × CircuitBreaker × Dependency :=
  match cb.state with
  | .closed =>
      let ok := dep.outcomes dep.calls
      let dep' : Dependency := { dep with calls := dep.calls + 1 }
      if ok then
        (.success, { cb with consecutive_failure_count := 0 }, dep')
      else
        let n := cb.consecutive_failure_count + 1
        if cb.failure_threshold ≤ n then
          (.failure,
           { cb with state := .opened, consecutive_failure_count := n,
                     last_failure_time := now }, dep')
        else
          (.failure, { cb with consecutive_failure_count := n }, dep')
  | .opened =>
      if cb.last_failure_time + cb.reset_timeout ≤ now then
        CircuitBreaker.trial { cb with state := .halfOpen } dep now
      else
        (.rejected, cb, dep)
  | .halfOpen => CircuitBreaker.trial cb dep now

/-- Drive a sequence of calls through the breaker, one per listed time,
returning the final breaker and dependency state. -/
def runCB (cb : CircuitBreaker) (dep : Dependency) : List Nat →
    CircuitBreaker × Dependency
  | [] => (cb, dep)
  | t :: ts =>
      let r := cb.call dep t
      runCB r.2.1 r.2.2 ts

/-! ## Concrete inputs used by the witnesses -/

/-- The error category surfaced by a submission outcome: the raised
error's class, or `"ok"` when no error was raised. -/
def resultErrCategory : Except APIError AsyncGenerateResponse → String
  | .error e => e.category
  | .ok _ => "ok"

/-- A standard submission environment: boto3 present, default bucket and
endpoint names, healthy S3 and SageMaker. -/
def envStd : SubmitEnv :=
  ⟨true, "model-harness-io", "model-harness-endpoint", none,
   .ok ⟨"inf-1", "s3://out", "s3://fail"⟩⟩

/-- A 1000-character prompt. -/
def prompt1000 : String := String.mk (List.replicate 1000 'a')

/-- A 1001-character prompt. -/
def prompt1001 : String := String.mk (List.replicate 1001 'a')

/-- A submission environment in which the S3 `put_object` of the input
record raises (durable storage unavailable). -/
def envPutFails : SubmitEnv :=
  ⟨true, "model-harness-io", "model-harness-endpoint",
   some "Could not connect to the endpoint URL",
   .ok ⟨"inf-1", "s3://out", "s3://fail"⟩⟩

/-- A failure artifact whose content is 501 characters long. -/
def longFailureObj : S3Object :=
  ⟨"failures/job8", "t1", String.mk (List.replicate 501 'e')⟩

/-- A bucket whose output listing holds 100 unrelated keys before the
one that matches `job42`: the match sits at index 100 and is never
inspected. -/
def storageBeyond100 : List S3Object :=
  List.replicate 100 ⟨"outputs/early", "t0", ""⟩ ++ [⟨"outputs/job42", "t1", ""⟩]

/-- A dependency that fails on every invocation. -/
def alwaysFail : Nat → Bool := fun _ => false

/-! ## Theorems -/

/-- Once the two prompt checks pass, no later branch of
`authenticated_async_generate` can produce a `ValidationAPIError`: every
other failure is wrapped by `except Exception` into `InferenceAPIError`. -/
lemma no_validation_after_checks (env : SubmitEnv) (u j : String)
    (req : AsyncGenerateRequest) (hb : isBlank req.prompt = false)
    (hlen : req.prompt.length ≤ 1000) (m : String) :
    (authenticated_async_generate env u j req).1
      ≠ Except.error (APIError.validation m) := by
  unfold authenticated_async_generate invoke_sagemaker_async
  rw [hb]
  simp only [Bool.false_eq_true, if_false, gt_iff_lt]
  rw [if_neg (Nat.not_lt.mpr hlen)]
  repeat' split
  all_goals simp

/-- C1: for every submission request whose prompt is empty (or only
whitespace) or longer than 1000 characters, `authenticated_async_generate`
fails with a validation error and performs no storage write and no backend
invocation — the effect trace is empty, so no object is written under
`inputs/` and `_invoke_sagemaker_async` is not called. -/
theorem C1_validation_failure_no_side_effects (env : SubmitEnv)
    (u j : String) (req : AsyncGenerateRequest)
    (h : isBlank req.prompt = true ∨ 1000 < req.prompt.length) :
    (∃ m, (authenticated_async_generate env u j req).1
        = Except.error (APIError.validation m))
    ∧ (authenticated_async_generate env u j req).2 = [] := by
  unfold authenticated_async_generate
  rcases h with h | h
  · rw [h]
    simp
  · by_cases hb : isBlank req.prompt
    · rw [hb]
      simp
    · rw [Bool.not_eq_true] at hb
      rw [hb]
      simp only [Bool.false_eq_true, if_false, gt_iff_lt]
      rw [if_pos h]
      simp

/-- Witness for C1 at the empty prompt. -/
theorem C1_witness :
    resultErrCategory (authenticated_async_generate envStd "alice" "job-1"
        ⟨"", "normal", none⟩).1 = "validation"
    ∧ (authenticated_async_generate envStd "alice" "job-1"
        ⟨"", "normal", none⟩).2 = [] := by
  have h := C1_validation_failure_no_side_effects envStd "alice" "job-1"
    ⟨"", "normal", none⟩ (Or.inl (by decide))
  obtain ⟨m, hm⟩ := h.1
  exact ⟨by rw [hm]; rfl, h.2⟩

/-- C6: a non-blank prompt of exactly 1000 characters passes validation
(the result is never a validation error), while a prompt of 1001
characters always fails with a validation error. -/
theorem C6_prompt_length_boundary (env : SubmitEnv) (u j : String)
    (req : AsyncGenerateRequest) :
    (isBlank req.prompt = false → req.prompt.length = 1000 →
      ∀ m, (authenticated_async_generate env u j req).1
        ≠ Except.error (APIError.validation m))
    ∧ (req.prompt.length = 1001 →
      ∃ m, (authenticated_async_generate env u j req).1
        = Except.error (APIError.validation m)) := by
  constructor
  · intro hb hlen m
    exact no_validation_after_checks env u j req hb (by omega) m
  · intro hlen
    by_cases hb : isBlank req.prompt
    · refine ⟨"Prompt cannot be empty", ?_⟩
      unfold authenticated_async_generate
      rw [hb]
      simp
    · refine ⟨"Prompt too long (max 1000 characters)", ?_⟩
      unfold authenticated_async_generate
      rw [Bool.not_eq_true] at hb
      rw [hb]
      simp only [Bool.false_eq_true, if_false, gt_iff_lt]
      rw [if_pos (by omega)]

set_option maxRecDepth 8000 in
/-- Witness for C6 at a 1000- and a 1001-character prompt. -/
theorem C6_witness :
    ((authenticated_async_generate envStd "alice" "job-2"
        ⟨prompt1000, "normal", none⟩).1
      ≠ Except.error (APIError.validation "Prompt cannot be empty"))
    ∧ resultErrCategory (authenticated_async_generate envStd "alice" "job-2"
        ⟨prompt1001, "normal", none⟩).1 = "validation" := by
  refine ⟨(C6_prompt_length_boundary envStd "alice" "job-2"
      ⟨prompt1000, "normal", none⟩).1 (by decide) (by decide)
      "Prompt cannot be empty", ?_⟩
  obtain ⟨m, hm⟩ := (C6_prompt_length_boundary envStd "alice" "job-2"
      ⟨prompt1001, "normal", none⟩).2 (by decide)
  rw [hm]
  rfl

/-- Counterexample to C3: when the write of the input object fails,
`authenticated_async_generate` does not surface a service-unavailable
error — the generic `except Exception` handler at lines 353-355 wraps
the storage failure into `InferenceAPIError`, so the surfaced category
is `inference`. -/
theorem C3_counterexample :
    resultErrCategory (authenticated_async_generate envPutFails "alice"
        "job-3" ⟨"a red bicycle", "normal", none⟩).1 = "inference"
    ∧ resultErrCategory (authenticated_async_generate envPutFails "alice"
        "job-3" ⟨"a red bicycle", "normal", none⟩).1
      ≠ "service_unavailable" := by
  constructor
  · rfl
  · intro h
    have hv : resultErrCategory (authenticated_async_generate envPutFails
        "alice" "job-3" ⟨"a red bicycle", "normal", none⟩).1
        = "inference" := rfl
    rw [hv] at h
    exact absurd h (by decide)

/-- C3 as amended: when the storage write of the input object fails
during submission, `authenticated_async_generate` surfaces the failure
as an inference error (the handler's catch-all wraps the exception into
`InferenceAPIError`), not as a service-unavailable error. -/
theorem C3_storage_failure_surfaced_as_inference (env : SubmitEnv)
    (u j : String) (req : AsyncGenerateRequest) (msg : String)
    (hb : isBlank req.prompt = false) (hlen : req.prompt.length ≤ 1000)
    (hboto : env.hasBoto3 = true) (hput : env.putResult = some msg) :
    (authenticated_async_generate env u j req).1
      = Except.error (APIError.inference
          ("Failed to start image generation: " ++ msg)) := by
  unfold authenticated_async_generate
  rw [hb]
  simp only [Bool.false_eq_true, if_false, gt_iff_lt]
  rw [if_neg (Nat.not_lt.mpr hlen), hboto]
  simp only [Bool.true_eq_false, if_false, hput]

/-- Witness for the amended C3. -/
theorem C3_witness :
    (authenticated_async_generate envPutFails "bob" "job-4"
        ⟨"a blue bicycle", "normal", none⟩).1
      = Except.error (APIError.inference
          ("Failed to start image generation: "
            ++ "Could not connect to the endpoint URL")) :=
  C3_storage_failure_surfaced_as_inference envPutFails "bob" "job-4"
    ⟨"a blue bicycle", "normal", none⟩ "Could not connect to the endpoint URL"
    (by decide) (by decide) (by decide) (by decide)

/-- An object returned by `list_objects_v2` is an object of the bucket
whose key starts with the requested key filter. -/
lemma mem_listing (storage : List S3Object) (pfx : String) (k : Nat)
    (o : S3Object) (h : o ∈ list_objects_v2 storage pfx k) :
    o ∈ storage ∧ strStarts o.key pfx = true := by
  unfold list_objects_v2 at h
  have h2 := List.take_subset _ _ h
  exact ⟨(List.mem_filter.mp h2).1, by simpa using (List.mem_filter.mp h2).2⟩

/-- Python's `s[:n]` never yields more than `n` characters. -/
lemma pySlice_length_le (s : String) (n : Nat) : (pySlice s n).length ≤ n := by
  show (s.data.take n).length ≤ n
  rw [List.length_take]
  exact Nat.min_le_left n _

/-- C4: the completed-output scan runs before the failure scan, so when
both a completed and a failed artifact for the same `job_id` are listed,
`get_job_status` reports `completed` with a presigned `output_url`,
never `failed`. -/
theorem C4_completed_checked_before_failed (env : StatusEnv)
    (u j : String) (obj : S3Object)
    (houtOk : env.outputScanRaises = false)
    (hfind : (list_objects_v2 env.storage "outputs/" 100).find?
        (fun o => strContains o.key j) = some obj)
    (_hfailExists : ∃ o ∈ list_objects_v2 env.storage "failures/" 100,
        strContains o.key j = true) :
    (get_job_status env u j).status = "completed"
    ∧ (get_job_status env u j).output_url
        = some (generate_presigned_url env.bucket obj.key 3600)
    ∧ (get_job_status env u j).status ≠ "failed"
    ∧ (get_job_status env u j).error_message = none := by
  have hscan : outputScan env j = some obj := by
    unfold outputScan
    rw [houtOk]
    simpa using hfind
  unfold get_job_status
  rw [hscan]
  simp

/-- Witness for C4: both an output and a failure artifact for `job9`. -/
theorem C4_witness :
    (get_job_status
      ⟨"model-harness-io",
       [⟨"outputs/job9", "2024-01-01T00:00:00", ""⟩,
        ⟨"failures/job9", "2024-01-01T00:00:00", "boom"⟩],
       false, false, "2024-01-02T00:00:00"⟩ "alice" "job9").status
      = "completed"
    ∧ (get_job_status
      ⟨"model-harness-io",
       [⟨"outputs/job9", "2024-01-01T00:00:00", ""⟩,
        ⟨"failures/job9", "2024-01-01T00:00:00", "boom"⟩],
       false, false, "2024-01-02T00:00:00"⟩ "alice" "job9").status
      ≠ "failed" := by
  have h := C4_completed_checked_before_failed
    ⟨"model-harness-io",
     [⟨"outputs/job9", "2024-01-01T00:00:00", ""⟩,
      ⟨"failures/job9", "2024-01-01T00:00:00", "boom"⟩],
     false, false, "2024-01-02T00:00:00"⟩ "alice" "job9"
    ⟨"outputs/job9", "2024-01-01T00:00:00", ""⟩
    (by decide) (by decide) (by decide)
  exact ⟨h.1, h.2.2.1⟩

/-- C5: a raised storage listing is caught per prefix and treated as "no
match": with both scans raising the job is reported `processing` with no
output or error fields; a raising output scan still lets a failure
artifact report `failed`; a raising failure scan still lets an output
artifact report `completed`.  (`get_job_status` is a total function, so
no scan error propagates.) -/
theorem C5_scan_errors_degrade_to_processing (bucket now u j : String)
    (storage : List S3Object) :
    (get_job_status ⟨bucket, storage, true, true, now⟩ u j).status
      = "processing"
    ∧ (get_job_status ⟨bucket, storage, true, true, now⟩ u j).output_url
      = none
    ∧ (get_job_status ⟨bucket, storage, true, true, now⟩ u j).error_message
      = none
    ∧ (∀ obj, (list_objects_v2 storage "failures/" 100).find?
          (fun o => strContains o.key j) = some obj →
        (get_job_status ⟨bucket, storage, true, false, now⟩ u j).status
          = "failed")
    ∧ (∀ obj, (list_objects_v2 storage "outputs/" 100).find?
          (fun o => strContains o.key j) = some obj →
        (get_job_status ⟨bucket, storage, false, true, now⟩ u j).status
          = "completed") := by
  refine ⟨?_, ?_, ?_, ?_, ?_⟩
  · unfold get_job_status outputScan failureScan
    simp
  · unfold get_job_status outputScan failureScan
    simp
  · unfold get_job_status outputScan failureScan
    simp
  · intro obj hfind
    have hscan : failureScan ⟨bucket, storage, true, false, now⟩ j
        = some obj := by
      unfold failureScan
      simpa using hfind
    have hscan2 : outputScan ⟨bucket, storage, true, false, now⟩ j = none := by
      unfold outputScan
      simp
    unfold get_job_status
    rw [hscan2, hscan]
  · intro obj hfind
    have hscan : outputScan ⟨bucket, storage, false, true, now⟩ j
        = some obj := by
      unfold outputScan
      simpa using hfind
    unfold get_job_status
    rw [hscan]

/-- Witness for C5: a failure artifact for `job1` while the output scan
raises. -/
theorem C5_witness :
    (get_job_status
      ⟨"model-harness-io", [⟨"failures/job1", "t1", "oops"⟩], true, true, "t2"⟩
      "alice" "job1").status = "processing"
    ∧ (get_job_status
      ⟨"model-harness-io", [⟨"failures/job1", "t1", "oops"⟩], true, false, "t2"⟩
      "alice" "job1").status = "failed" :=
  ⟨(C5_scan_errors_degrade_to_processing "model-harness-io" "t2" "alice"
      "job1" [⟨"failures/job1", "t1", "oops"⟩]).1,
   (C5_scan_errors_degrade_to_processing "model-harness-io" "t2" "alice"
      "job1" [⟨"failures/job1", "t1", "oops"⟩]).2.2.2.1
      ⟨"failures/job1", "t1", "oops"⟩ (by decide)⟩

/-- If no object of a prefix listing matches the job id, the scan of
that listing finds nothing. -/
lemma find?_eq_none_of_no_match (l : List S3Object) (j : String)
    (h : ∀ o ∈ l, strContains o.key j = false) :
    l.find? (fun o => strContains o.key j) = none :=
  List.find?_eq_none.mpr (fun o ho => by simp [h o ho])

/-- C7: a `job_id` with no matching object under either the output or
the failure prefix — including a never-submitted one — is reported
`processing` with `output_url` and `error_message` both absent; the
response cannot distinguish not-yet-started, running, and unknown jobs. -/
theorem C7_unknown_job_reports_processing (env : StatusEnv) (u j : String)
    (hout : ∀ o ∈ env.storage, strStarts o.key "outputs/" = true →
      strContains o.key j = false)
    (hfail : ∀ o ∈ env.storage, strStarts o.key "failures/" = true →
      strContains o.key j = false) :
    (get_job_status env u j).status = "processing"
    ∧ (get_job_status env u j).output_url = none
    ∧ (get_job_status env u j).error_message = none
    ∧ (get_job_status env u j).completed_at = none := by
  have hscan : outputScan env j = none := by
    unfold outputScan
    by_cases hr : env.outputScanRaises
    · rw [hr]
      simp
    · rw [Bool.not_eq_true] at hr
      rw [hr]
      simp only [Bool.false_eq_true, if_false]
      exact find?_eq_none_of_no_match _ j
        (fun o ho => hout o (mem_listing _ _ _ o ho).1 (mem_listing _ _ _ o ho).2)
  have hscan2 : failureScan env j = none := by
    unfold failureScan
    by_cases hr : env.failureScanRaises
    · rw [hr]
      simp
    · rw [Bool.not_eq_true] at hr
      rw [hr]
      simp only [Bool.false_eq_true, if_false]
      exact find?_eq_none_of_no_match _ j
        (fun o ho => hfail o (mem_listing _ _ _ o ho).1 (mem_listing _ _ _ o ho).2)
  unfold get_job_status
  rw [hscan, hscan2]
  simp

/-- Witness for C7: a bucket holding artifacts of another job only. -/
theorem C7_witness :
    (get_job_status
      ⟨"model-harness-io", [⟨"outputs/other-job", "t1", ""⟩], false, false, "t2"⟩
      "alice" "job7").status = "processing"
    ∧ (get_job_status
      ⟨"model-harness-io", [⟨"outputs/other-job", "t1", ""⟩], false, false, "t2"⟩
      "alice" "job7").output_url = none :=
  ⟨(C7_unknown_job_reports_processing
      ⟨"model-harness-io", [⟨"outputs/other-job", "t1", ""⟩], false, false, "t2"⟩
      "alice" "job7" (by decide) (by decide)).1,
   (C7_unknown_job_reports_processing
      ⟨"model-harness-io", [⟨"outputs/other-job", "t1", ""⟩], false, false, "t2"⟩
      "alice" "job7" (by decide) (by decide)).2.1⟩

/-- C8: when the failure scan matches (and the output scan did not), the
status is `failed` and `error_message` is the failure object's content
truncated to 500 characters; no returned `error_message` ever exceeds
500 characters. -/
theorem C8_failure_message_truncated (env : StatusEnv) (u j : String)
    (obj : S3Object) (hout : outputScan env j = none)
    (hfailOk : env.failureScanRaises = false)
    (hfind : (list_objects_v2 env.storage "failures/" 100).find?
        (fun o => strContains o.key j) = some obj) :
    (get_job_status env u j).status = "failed"
    ∧ (get_job_status env u j).error_message
        = some (pySlice obj.content 500)
    ∧ ∀ em, (get_job_status env u j).error_message = some em →
        em.length ≤ 500 := by
  have hscan : failureScan env j = some obj := by
    unfold failureScan
    rw [hfailOk]
    simpa using hfind
  unfold get_job_status
  rw [hout, hscan]
  refine ⟨rfl, rfl, ?_⟩
  intro em hem
  have : em = pySlice obj.content 500 := by
    simpa using hem.symm
  rw [this]
  exact pySlice_length_le obj.content 500

set_option maxRecDepth 8000 in
/-- Witness for C8 at a 501-character failure message. -/
theorem C8_witness :
    (get_job_status
      ⟨"model-harness-io", [longFailureObj], false, false, "t2"⟩
      "alice" "job8").status = "failed"
    ∧ (get_job_status
      ⟨"model-harness-io", [longFailureObj], false, false, "t2"⟩
      "alice" "job8").error_message
      = some (pySlice longFailureObj.content 500) :=
  ⟨(C8_failure_message_truncated
      ⟨"model-harness-io", [longFailureObj], false, false, "t2"⟩
      "alice" "job8" longFailureObj (by decide) (by decide) (by decide)).1,
   (C8_failure_message_truncated
      ⟨"model-harness-io", [longFailureObj], false, false, "t2"⟩
      "alice" "job8" longFailureObj (by decide) (by decide) (by decide)).2.1⟩

/-- C9: `get_job_status` performs no ownership check — the status,
presigned `output_url` and `error_message` it reports depend only on the
`job_id` and the storage contents, not on which authenticated user asks,
and the `user_id` field is always the caller's own identity. -/
theorem C9_no_ownership_check (env : StatusEnv) (j u1 u2 : String) :
    (get_job_status env u1 j).status = (get_job_status env u2 j).status
    ∧ (get_job_status env u1 j).output_url
        = (get_job_status env u2 j).output_url
    ∧ (get_job_status env u1 j).error_message
        = (get_job_status env u2 j).error_message
    ∧ (get_job_status env u1 j).created_at
        = (get_job_status env u2 j).created_at
    ∧ (get_job_status env u1 j).completed_at
        = (get_job_status env u2 j).completed_at
    ∧ (get_job_status env u1 j).user_id = u1
    ∧ (get_job_status env u2 j).user_id = u2 := by
  unfold get_job_status
  cases houtcome : outputScan env j
  · cases hfl : failureScan env j <;> simp
  · simp

/-- C10: each status scan inspects only the first 100 keys listed for
its prefix (`MaxKeys=100`, no pagination), so a job whose matching
artifact exists in storage but not among those first 100 keys is
reported as if no artifact existed: `processing` with no fields. -/
theorem C10_first_100_keys_only (env : StatusEnv) (u j : String)
    (h100out : ∀ o ∈ list_objects_v2 env.storage "outputs/" 100,
      strContains o.key j = false)
    (h100fail : ∀ o ∈ list_objects_v2 env.storage "failures/" 100,
      strContains o.key j = false)
    (_hbeyond : ∃ o ∈ env.storage,
      (strStarts o.key "outputs/" = true ∨ strStarts o.key "failures/" = true)
      ∧ strContains o.key j = true) :
    (get_job_status env u j).status = "processing"
    ∧ (get_job_status env u j).output_url = none
    ∧ (get_job_status env u j).error_message = none := by
  have hscan : outputScan env j = none := by
    unfold outputScan
    by_cases hr : env.outputScanRaises
    · rw [hr]
      simp
    · rw [Bool.not_eq_true] at hr
      rw [hr]
      simp only [Bool.false_eq_true, if_false]
      exact find?_eq_none_of_no_match _ j h100out
  have hscan2 : failureScan env j = none := by
    unfold failureScan
    by_cases hr : env.failureScanRaises
    · rw [hr]
      simp
    · rw [Bool.not_eq_true] at hr
      rw [hr]
      simp only [Bool.false_eq_true, if_false]
      exact find?_eq_none_of_no_match _ j h100fail
  unfold get_job_status
  rw [hscan, hscan2]
  simp

set_option maxRecDepth 8000 in
/-- Witness for C10: the artifact of `job42` is the 101st listed key, so
the job reports `processing` despite its output object existing. -/
theorem C10_witness :
    (get_job_status
      ⟨"model-harness-io", storageBeyond100, false, false, "t2"⟩
      "alice" "job42").status = "processing"
    ∧ (get_job_status
      ⟨"model-harness-io", storageBeyond100, false, false, "t2"⟩
      "alice" "job42").output_url = none :=
  ⟨(C10_first_100_keys_only
      ⟨"model-harness-io", storageBeyond100, false, false, "t2"⟩
      "alice" "job42" (by decide) (by decide) (by decide)).1,
   (C10_first_100_keys_only
      ⟨"model-harness-io", storageBeyond100, false, false, "t2"⟩
      "alice" "job42" (by decide) (by decide) (by decide)).2.1⟩

/-- C2: for the breaker guarding `_invoke_sagemaker_async`
(`failure_threshold = 5`, `reset_timeout = 60`), five consecutive
failures of the wrapped call (each of which did invoke the dependency)
leave the breaker open; the next call within the cooldown is rejected
with the dependency's call counter unchanged; once `reset_timeout` has
elapsed since the last failure, one trial call is let through — its
success closes the breaker and resets the failure counter to zero, its
failure reopens the breaker, restarts the cooldown at the trial time,
and the following call within the new cooldown is again rejected. -/
theorem C2_circuit_breaker_lifecycle (f : Nat → Bool)
    (hf : ∀ i, i < 5 → f i = false) (t1 t2 t3 t4 t5 t6 t7 t8 : Nat)
    (hreject : t6 < t5 + 60) (htrial : t5 + 60 ≤ t7)
    (hcool : t8 < t7 + 60) :
    runCB (CircuitBreaker.init 5 60) ⟨f, 0⟩ [t1, t2, t3, t4, t5]
      = (⟨5, 60, .opened, 5, t5⟩, ⟨f, 5⟩)
    ∧ CircuitBreaker.call ⟨5, 60, .opened, 5, t5⟩ ⟨f, 5⟩ t6
      = (.rejected, ⟨5, 60, .opened, 5, t5⟩, ⟨f, 5⟩)
    ∧ (f 5 = true →
        CircuitBreaker.call ⟨5, 60, .opened, 5, t5⟩ ⟨f, 5⟩ t7
          = (.success, ⟨5, 60, .closed, 0, t5⟩, ⟨f, 6⟩))
    ∧ (f 5 = false →
        CircuitBreaker.call ⟨5, 60, .opened, 5, t5⟩ ⟨f, 5⟩ t7
          = (.failure, ⟨5, 60, .opened, 5, t7⟩, ⟨f, 6⟩)
        ∧ CircuitBreaker.call ⟨5, 60, .opened, 5, t7⟩ ⟨f, 6⟩ t8
          = (.rejected, ⟨5, 60, .opened, 5, t7⟩, ⟨f, 6⟩)) := by
  refine ⟨?_, ?_, ?_, ?_⟩
  · simp [runCB, CircuitBreaker.call, CircuitBreaker.init,
      hf 0 (by omega), hf 1 (by omega), hf 2 (by omega), hf 3 (by omega),
      hf 4 (by omega)]
  · unfold CircuitBreaker.call
    simp [Nat.not_le.mpr hreject]
  · intro h5
    unfold CircuitBreaker.call CircuitBreaker.trial
    simp [h5, htrial]
  · intro h5
    constructor
    · unfold CircuitBreaker.call CircuitBreaker.trial
      simp [h5, htrial]
    · unfold CircuitBreaker.call
      simp [Nat.not_le.mpr hcool]

/-- Witness for C2: five failures at time 0, a rejected call at 59, a
failing trial at 60 and another rejected call at 119. -/
theorem C2_witness :
    runCB (CircuitBreaker.init 5 60) ⟨alwaysFail, 0⟩ [0, 0, 0, 0, 0]
      = (⟨5, 60, .opened, 5, 0⟩, ⟨alwaysFail, 5⟩)
    ∧ CircuitBreaker.call ⟨5, 60, .opened, 5, 0⟩ ⟨alwaysFail, 5⟩ 59
      = (.rejected, ⟨5, 60, .opened, 5, 0⟩, ⟨alwaysFail, 5⟩)
    ∧ CircuitBreaker.call ⟨5, 60, .opened, 5, 0⟩ ⟨alwaysFail, 5⟩ 60
      = (.failure, ⟨5, 60, .opened, 5, 60⟩, ⟨alwaysFail, 6⟩)
    ∧ CircuitBreaker.call ⟨5, 60, .opened, 5, 60⟩ ⟨alwaysFail, 6⟩ 119
      = (.rejected, ⟨5, 60, .opened, 5, 60⟩, ⟨alwaysFail, 6⟩) := by
  have h := C2_circuit_breaker_lifecycle alwaysFail (fun _ _ => rfl)
    0 0 0 0 0 59 60 119 (by omega) (by omega) (by omega)
  exact ⟨h.1, h.2.1, (h.2.2.2 rfl).1, (h.2.2.2 rfl).2⟩

end ModelHarness
